import Mathlib

/-!
Verification development for the required-longitudinal-acceleration measure
(ALongReq.compute in commonroad_crime/measure/acceleration/a_long_req.py).

Numbers are modelled as NaN-extended rationals (PyVal).  Arithmetic follows
Python float semantics on the NaN side: binary operations propagate NaN,
comparisons with NaN are false, and true division by an exact zero raises
ZeroDivisionError, which we model as an Option-none outcome.  The Python
math library routines sqrt and cos (an external standard-library
collaborator) are abstracted as a pair of rational functions (MathFns).

Collaborators of compute that live outside the shown source file
(the state validator, the same-lanelet exception helper, the lane
projector and the headway measure HW, and the rounding helper int_round)
are modelled from the specification; each such definition carries a
doc comment saying so.
-/

/-- A Python float restricted to the values the measure manipulates:
either NaN or an exact rational. -/
inductive PyVal where
  | nan : PyVal
  | fin : ℚ → PyVal
deriving DecidableEq, Repr

/-- Addition with NaN propagation. -/
def pyAdd : PyVal → PyVal → PyVal
  | .fin a, .fin b => .fin (a + b)
  | _, _ => .nan

/-- Subtraction with NaN propagation. -/
def pySub : PyVal → PyVal → PyVal
  | .fin a, .fin b => .fin (a - b)
  | _, _ => .nan

/-- Multiplication with NaN propagation. -/
def pyMul : PyVal → PyVal → PyVal
  | .fin a, .fin b => .fin (a * b)
  | _, _ => .nan

/-- Python float comparison: any comparison involving NaN is false. -/
def pyLt : PyVal → PyVal → Bool
  | .fin a, .fin b => decide (a < b)
  | _, _ => false

/-- Python float comparison: any comparison involving NaN is false. -/
def pyGt : PyVal → PyVal → Bool
  | .fin a, .fin b => decide (b < a)
  | _, _ => false

/-- Python min of two values: the second argument replaces the first only
when it compares strictly smaller, so min(NaN, x) = NaN. -/
def pyMin (a b : PyVal) : PyVal := if pyLt b a then b else a

/-- Python true division.  Division by an exact zero raises
ZeroDivisionError (modelled as none); a NaN denominator or numerator
otherwise yields NaN. -/
def pyDiv (a b : PyVal) : Option PyVal :=
  match b with
  | .nan => some .nan
  | .fin q =>
      if q = 0 then none
      else
        match a with
        | .nan => some .nan
        | .fin p => some (.fin (p / q))

/-- Kinematic state of one actor at the queried time step, as read by the
measure: planar velocity and acceleration components. -/
structure VehicleState where
  velocity : ℚ
  velocity_y : ℚ
  acceleration : ℚ
  acceleration_y : ℚ
deriving DecidableEq, Repr

/-- The Python math library routines used by the measure, abstracted as an
external collaborator supplying sqrt and cos on rationals. -/
structure MathFns where
  sqrt : ℚ → ℚ
  cos : ℚ → ℚ

/-- Magnitude of a 2D vector projected by the cosine of the lane-aligned
orientation, exactly as lines 66-80 of the source build the longitudinal
acceleration and velocity components. -/
def longComponent (m : MathFns) (x y theta : ℚ) : ℚ :=
  m.sqrt (x ^ 2 + y ^ 2) * m.cos theta

/-- Inputs of one ALongReq.compute call, with the out-of-file
collaborators replaced by their results.

Modelled from the spec: ego_state and other_state are the State Accessor
results (none when the actor has no state at the time step); the
orientation fields are the Geometry Projector results (none when the
position is outside the projection domain); headway is the Headway
Computer result (NaN when no common lane relates the actors);
except_same_lanelet is the condition tested by the same-lanelet
exception helper. -/
structure ComputeInput where
  math : MathFns
  ego_state : Option VehicleState
  other_state : Option VehicleState
  except_same_lanelet : Bool
  ego_orientation : Option ℚ
  other_orientation : Option ℚ
  headway : PyVal
  acceleration_mode : ℕ
  verbose : Bool

/-- Replace only the verbose flag of an input. -/
def setVerbose (i : ComputeInput) (b : Bool) : ComputeInput :=
  ⟨i.math, i.ego_state, i.other_state, i.except_same_lanelet,
   i.ego_orientation, i.other_orientation, i.headway,
   i.acceleration_mode, b⟩

/-- Python truthiness of the projector result as tested by
line 61 of the source: None is falsy, and the float 0.0 is also falsy. -/
def orientationTruthy : Option ℚ → Bool
  | none => false
  | some q => decide (q ≠ 0)

/-- The mutable measure state: the value field written by compute. -/
structure MeasureState where
  value : PyVal
deriving DecidableEq, Repr

/-- Outcome of one call: a returned value or an escaped exception. -/
inductive ComputeResult where
  | raised : ComputeResult
  | ret : PyVal → ComputeResult
deriving DecidableEq, Repr

/-- Messages printed by the call (structured, not raw strings). -/
inductive LogEvent where
  | invalidStates : LogEvent
  | relVelocity : ℚ → LogEvent
  | measureValue : PyVal → LogEvent
deriving DecidableEq, Repr

/-- Post-state, outcome and printed log of one compute call. -/
structure ComputeOutput where
  state : MeasureState
  result : ComputeResult
  printed : List LogEvent
deriving DecidableEq, Repr

/-- Printing helper: a message reaches the console only when verbose. -/
def emit (verbose : Bool) (e : LogEvent) : List LogEvent :=
  if verbose then [e] else []

/-- Modelled from the spec: int_round from utility/general.py (not under
src) rounds to n decimal places, half away from zero, and the NaN
sentinel propagates through rounding. -/
def int_round (x : PyVal) (n : ℕ) : PyVal :=
  match x with
  | .nan => .nan
  | .fin q =>
      let p : ℚ := (10 : ℚ) ^ n
      if 0 < q then .fin (((⌊q * p + 1 / 2⌋ : ℤ) : ℚ) / p)
      else .fin (((⌈q * p - 1 / 2⌉ : ℤ) : ℚ) / p)

/-- Constant-acceleration model, lines 84-88 of the source:
a_req = min(a_obj - v_rel ** 2 / (2 * x_rel), 0.0) with
v_rel = v_other_long - v_ego_long.  none models a raised
ZeroDivisionError. -/
def aReqMode1 (vEgoLong vOtherLong aObj : ℚ) (xRel : PyVal) : Option PyVal :=
  let vRel := vOtherLong - vEgoLong
  match pyDiv (.fin (vRel ^ 2)) (pyMul (.fin 2) xRel) with
  | none => none
  | some d => some (pyMin (pySub (.fin aObj) d) (.fin 0))

/-- Piecewise-constant-motion model exactly as line 92 of the source
writes it: a_req = -(v_ego_long ** 2) / (2 * (x_rel - v_other_long ** 2
/ 2 * a_obj)).  The subtracted term parses as (v_other_long ^ 2 / 2) *
a_obj, by the shared left-associative precedence of division and
multiplication in both languages. -/
def aReqPiecewise (vEgoLong vOtherLong aObj : ℚ) (xRel : PyVal) : Option PyVal :=
  pyDiv (.fin (-(vEgoLong ^ 2)))
    (pyMul (.fin 2) (pySub xRel (.fin (vOtherLong ^ 2 / 2 * aObj))))

/-- Modelled from the spec: the piecewise-constant-motion formula as the
spec states it, required acceleration = -(ego longitudinal velocity)^2 /
(2 * (relative distance - (other longitudinal velocity)^2 / (2 * other
longitudinal acceleration))).  Kept separate for comparison with
aReqPiecewise, which embeds the source line. -/
def aReqPiecewiseSpec (vEgoLong vOtherLong aObj : ℚ) (xRel : PyVal) : Option PyVal :=
  pyDiv (.fin (-(vEgoLong ^ 2)))
    (pyMul (.fin 2) (pySub xRel (.fin (vOtherLong ^ 2 / (2 * aObj)))))

/-- Post-processing, lines 93-96 of the source: a strictly positive raw
value is clamped to 0.0, anything else is rounded to 2 decimals. -/
def postProcess (a : PyVal) : PyVal :=
  if pyGt a (.fin 0) then .fin 0 else int_round a 2

/-- Store and return the post-processed value with the final log line,
lines 93-100 of the source. -/
def finish (vb : Bool) (preLog : List LogEvent) (aReq : PyVal) : ComputeOutput :=
  let v := postProcess aReq
  ⟨⟨v⟩, .ret v, preLog ++ emit vb (.measureValue v)⟩

/-- One ALongReq.compute call (lines 40-100 of the source) as a function
from the prior measure state and the call inputs to the post-state,
outcome and printed log.  The state validator and the same-lanelet
exception helper are modelled from the spec: the validator fails exactly
when an actor state is missing, and the exception helper stores the
expected value 0.0 and short-circuits when its condition holds. -/
def compute (s : MeasureState) (i : ComputeInput) : ComputeOutput :=
  if i.ego_state.isNone || i.other_state.isNone then
    ⟨s, .ret .nan, emit i.verbose .invalidStates⟩
  else if i.except_same_lanelet then
    ⟨⟨.fin 0⟩, .ret (.fin 0), emit i.verbose (.measureValue (.fin 0))⟩
  else if !orientationTruthy i.ego_orientation
       || !orientationTruthy i.other_orientation then
    finish i.verbose [] (.fin 0)
  else
    let egoSt := i.ego_state.getD ⟨0, 0, 0, 0⟩
    let otherSt := i.other_state.getD ⟨0, 0, 0, 0⟩
    let egoOri := i.ego_orientation.getD 0
    let otherOri := i.other_orientation.getD 0
    let aObj := longComponent i.math otherSt.acceleration otherSt.acceleration_y otherOri
    let xRel := i.headway
    let vEgoLong := longComponent i.math egoSt.velocity egoSt.velocity_y egoOri
    let vOtherLong := longComponent i.math otherSt.velocity otherSt.velocity_y otherOri
    if i.acceleration_mode = 1 then
      let preLog := emit i.verbose (.relVelocity (vOtherLong - vEgoLong))
      match aReqMode1 vEgoLong vOtherLong aObj xRel with
      | none => ⟨s, .raised, preLog⟩
      | some a => finish i.verbose preLog a
    else
      match aReqPiecewise vEgoLong vOtherLong aObj xRel with
      | none => ⟨s, .raised, []⟩
      | some a => finish i.verbose [] a

/-- Math-library instantiation used by the concrete runs: sqrt at the
perfect squares that occur and a cosine table giving 1 at the sampled
orientation. -/
def demoMath : MathFns where
  sqrt := fun q =>
    if q = 100 then 10 else if q = 36 then 6
    else if q = 25 then 5 else if q = 4 then 2 else 0
  cos := fun _ => 1

/-- Claim C1: in the piecewise-constant-motion branch (acceleration_mode
not equal to 1) the raw required acceleration is claimed to be
-(ego longitudinal velocity)^2 divided by (2 * (relative distance -
(other longitudinal velocity)^2 / (2 * other longitudinal
acceleration))).  Refuted: the source line x_rel - v_other_long ** 2 / 2
* a_obj multiplies by the acceleration instead of dividing by twice the
acceleration.  At longitudinal ego velocity 10, other velocity 6, other
acceleration 2 and relative distance 100 the source value is -25/32
while the claimed formula gives -50/91; the full call stores the rounded
source value -0.78. -/
theorem aLongReq_piecewise_precedence_bug :
    compute ⟨.nan⟩ ⟨demoMath, some ⟨10, 0, 0, 0⟩, some ⟨6, 0, 2, 0⟩,
        false, some 1, some 1, .fin 100, 2, false⟩
      = ⟨⟨.fin (-39/50)⟩, .ret (.fin (-39/50)), []⟩
    ∧ aReqPiecewise 10 6 2 (.fin 100) = some (.fin (-25/32))
    ∧ aReqPiecewiseSpec 10 6 2 (.fin 100) = some (.fin (-50/91))
    ∧ aReqPiecewise 10 6 2 (.fin 100) ≠ aReqPiecewiseSpec 10 6 2 (.fin 100) := by
  have hceil : (⌈-(629/8 : ℚ)⌉ : ℤ) = -78 := by norm_num [Int.ceil_eq_iff]
  have e1 : aReqPiecewise 10 6 2 (.fin 100) = some (.fin (-25/32)) := by
    norm_num [aReqPiecewise, pyDiv, pyMul, pySub]
  have e2 : aReqPiecewiseSpec 10 6 2 (.fin 100) = some (.fin (-50/91)) := by
    norm_num [aReqPiecewiseSpec, pyDiv, pyMul, pySub]
  refine ⟨?_, e1, e2, ?_⟩
  · norm_num [compute, finish, postProcess, int_round, aReqPiecewise, pyDiv, pyMul,
      pySub, pyMin, pyLt, pyGt, longComponent, orientationTruthy, emit, demoMath, hceil]
  · rw [e1, e2]
    intro h
    simp only [Option.some.injEq, PyVal.fin.injEq] at h
    norm_num at h

/-- Claim C2: with the constant-acceleration configuration
(acceleration_mode equal to 1) the raw required acceleration equals
min(other longitudinal acceleration - (relative longitudinal
velocity)^2 / (2 * relative distance), 0), with relative velocity the
other longitudinal velocity minus the ego longitudinal velocity; and in
the concrete scenario (ego longitudinal velocity 10, other velocity 5,
other acceleration 0, relative distance 20) the raw value is -5/8 =
-0.625 and the stored result is the value rounded to two decimals,
-0.63 under the modelled half-away-from-zero rounding. -/
theorem aLongReq_mode1_formula :
    (∀ (vEgo vOther aObj d : ℚ), d ≠ 0 →
      aReqMode1 vEgo vOther aObj (.fin d)
        = some (.fin (min (aObj - (vOther - vEgo) ^ 2 / (2 * d)) 0)))
    ∧ aReqMode1 10 5 0 (.fin 20) = some (.fin (-5/8))
    ∧ int_round (.fin (-5/8)) 2 = .fin (-63/100)
    ∧ compute ⟨.nan⟩ ⟨demoMath, some ⟨10, 0, 0, 0⟩, some ⟨5, 0, 0, 0⟩,
        false, some 1, some 1, .fin 20, 1, false⟩
      = ⟨⟨.fin (-63/100)⟩, .ret (.fin (-63/100)), []⟩ := by
  have hceil : (⌈(-63:ℚ)⌉ : ℤ) = -63 := by norm_num [Int.ceil_eq_iff]
  refine ⟨?_, ?_, ?_, ?_⟩
  · intro vEgo vOther aObj d hd
    simp only [aReqMode1, pyDiv, pyMul, pySub, pyMin, pyLt]
    rw [if_neg (by exact mul_ne_zero two_ne_zero hd)]
    simp only [Option.some.injEq, PyVal.fin.injEq]
    by_cases hpos : (0:ℚ) < aObj - (vOther - vEgo) ^ 2 / (2 * d)
    · simp [hpos, min_eq_right hpos.le]
    · simp [hpos, min_eq_left (not_lt.mp hpos)]
  · norm_num [aReqMode1, pyDiv, pyMul, pySub, pyMin, pyLt]
  · norm_num [int_round, hceil]
  · norm_num [compute, finish, postProcess, int_round, aReqMode1, pyDiv, pyMul,
      pySub, pyMin, pyLt, pyGt, longComponent, orientationTruthy, emit, demoMath, hceil]

/-- Witness for claim C2: the general branch formula applied at the
concrete scenario values, with the nonzero-distance hypothesis
discharged at distance 20. -/
theorem aLongReq_mode1_formula_witness :
    aReqMode1 10 5 0 (.fin 20)
      = some (.fin (min ((0:ℚ) - (5 - 10) ^ 2 / (2 * 20)) 0)) :=
  aLongReq_mode1_formula.1 10 5 0 20 (by decide)

/-- Claim C3: compute is claimed to take the out-of-projection-domain
default exactly when a projection is undefined, and to run the full
kinematic computation when both projections are defined, even when a
lane-aligned orientation is exactly 0.  Refuted: line 61 tests Python
truthiness, so a defined orientation of exactly 0 is conflated with the
undefined case.  With both projections defined and ego orientation 0,
the call returns the default 0.0; the same input with ego orientation 1
runs the kinematics and stores -0.63. -/
theorem aLongReq_zero_orientation_default_bug :
    compute ⟨.nan⟩ ⟨demoMath, some ⟨10, 0, 0, 0⟩, some ⟨5, 0, 0, 0⟩,
        false, some 0, some 1, .fin 20, 1, false⟩
      = ⟨⟨.fin 0⟩, .ret (.fin 0), []⟩
    ∧ (some (0:ℚ)).isSome = true
    ∧ compute ⟨.nan⟩ ⟨demoMath, some ⟨10, 0, 0, 0⟩, some ⟨5, 0, 0, 0⟩,
        false, some 1, some 1, .fin 20, 1, false⟩
      = ⟨⟨.fin (-63/100)⟩, .ret (.fin (-63/100)), []⟩ := by
  have hceil : (⌈(-63:ℚ)⌉ : ℤ) = -63 := by norm_num [Int.ceil_eq_iff]
  have hceil0 : (⌈-(1/2 : ℚ)⌉ : ℤ) = 0 := by norm_num [Int.ceil_eq_iff]
  refine ⟨?_, rfl, ?_⟩
  · norm_num [compute, finish, postProcess, int_round, pyGt, orientationTruthy,
      emit, hceil0]
  · norm_num [compute, finish, postProcess, int_round, aReqMode1, pyDiv, pyMul,
      pySub, pyMin, pyLt, pyGt, longComponent, orientationTruthy, emit, demoMath, hceil]

/-- Claim C4: the post-processing clamps a strictly positive raw value
to 0.0, rounds any finite non-positive raw value to two decimal places
(never storing the raw unrounded value), and the stored result is a
two-decimal quantity that is never positive; finish stores exactly the
post-processed value. -/
theorem aLongReq_postprocess_clamp_round :
    (∀ a : ℚ, 0 < a → postProcess (.fin a) = .fin 0)
    ∧ (∀ a : ℚ, a ≤ 0 → postProcess (.fin a) = int_round (.fin a) 2)
    ∧ (∀ a q : ℚ, postProcess (.fin a) = .fin q → q ≤ 0 ∧ ∃ z : ℤ, q = (z : ℚ) / 100)
    ∧ (∀ (vb : Bool) (pl : List LogEvent) (a : PyVal),
        (finish vb pl a).state.value = postProcess a
        ∧ (finish vb pl a).result = .ret (postProcess a)) := by
  refine ⟨?_, ?_, ?_, ?_⟩
  · intro a ha
    simp [postProcess, pyGt, ha]
  · intro a ha
    simp [postProcess, pyGt, not_lt.mpr ha]
  · intro a q h
    rcases lt_or_le 0 a with ha | ha
    · simp [postProcess, pyGt, ha] at h
      exact ⟨h ▸ le_refl 0, 0, by rw [← h]; norm_num⟩
    · rw [show postProcess (.fin a) = int_round (.fin a) 2 by
          simp [postProcess, pyGt, not_lt.mpr ha]] at h
      simp only [int_round] at h
      rw [if_neg (not_lt.mpr ha), PyVal.fin.injEq] at h
      have hc : (⌈a * (10:ℚ) ^ 2 - 1 / 2⌉ : ℤ) ≤ 0 := by
        rw [Int.ceil_le]
        push_cast
        nlinarith
      refine ⟨?_, ⌈a * (10:ℚ) ^ 2 - 1 / 2⌉, by rw [← h]; norm_num⟩
      rw [← h]
      apply div_nonpos_of_nonpos_of_nonneg _ (by positivity)
      exact_mod_cast hc
  · intro vb pl a
    exact ⟨rfl, rfl⟩

/-- Witness for claim C4: the clamp at raw value 1 and the rounding at
raw value -1, with the sign hypotheses discharged there. -/
theorem aLongReq_postprocess_clamp_round_witness :
    postProcess (.fin 1) = .fin 0
    ∧ postProcess (.fin (-1)) = int_round (.fin (-1)) 2 :=
  ⟨aLongReq_postprocess_clamp_round.1 1 (by decide),
   aLongReq_postprocess_clamp_round.2.1 (-1) (by decide)⟩

/-- Claim C5: whenever either actor has no resolvable state at the
requested time step, compute returns NaN without raising and leaves the
stored value untouched. -/
theorem aLongReq_missing_state_nan :
    ∀ (s : MeasureState) (i : ComputeInput),
      i.ego_state = none ∨ i.other_state = none →
      compute s i = ⟨s, .ret .nan, emit i.verbose .invalidStates⟩ := by
  intro s i h
  rcases h with h | h <;> simp [compute, h]

/-- Witness for claim C5: a call with both states missing returns NaN. -/
theorem aLongReq_missing_state_nan_witness :
    compute ⟨.fin 3⟩ ⟨demoMath, none, none, false, none, none, .nan, 1, true⟩
      = ⟨⟨.fin 3⟩, .ret .nan, emit true .invalidStates⟩ :=
  aLongReq_missing_state_nan ⟨.fin 3⟩ _ (Or.inl rfl)

/-- Claim C6 counterexample: the claim says a zero kinematic denominator
is explicitly guarded and mapped to NaN or infinity without raising.
Refuted: with the constant-acceleration model and relative distance
exactly 0 the division raises (ZeroDivisionError), no value is stored,
and no NaN or infinity sentinel is produced. -/
theorem aLongReq_zero_distance_raises_cex :
    compute ⟨.nan⟩ ⟨demoMath, some ⟨10, 0, 0, 0⟩, some ⟨5, 0, 0, 0⟩,
        false, some 1, some 1, .fin 0, 1, false⟩
      = ⟨⟨.nan⟩, .raised, []⟩ := by
  norm_num [compute, aReqMode1, pyDiv, pyMul, pySub, longComponent,
    orientationTruthy, emit, demoMath]

/-- Claim C6 amended: the kinematic division is not guarded.  Whenever
the constant-acceleration branch is reached with relative distance
exactly 0, the division by zero raises and compute propagates the
exception, leaving the stored value unchanged, instead of mapping the
case to NaN or infinity. -/
theorem aLongReq_zero_distance_unguarded :
    ∀ (s : MeasureState) (m : MathFns) (eSt oSt : VehicleState)
      (eo oo : ℚ) (vb : Bool),
      eo ≠ 0 → oo ≠ 0 →
      compute s ⟨m, some eSt, some oSt, false, some eo, some oo, .fin 0, 1, vb⟩
        = ⟨s, .raised,
            emit vb (.relVelocity
              (longComponent m oSt.velocity oSt.velocity_y oo
                - longComponent m eSt.velocity eSt.velocity_y eo))⟩ := by
  intro s m eSt oSt eo oo vb heo hoo
  simp [compute, orientationTruthy, heo, hoo, aReqMode1, pyMul, pyDiv]

/-- Witness for claim C6 amended: the unguarded raise at a concrete
zero-distance call, hypotheses discharged at orientations 1. -/
theorem aLongReq_zero_distance_unguarded_witness :
    compute ⟨.fin 7⟩ ⟨demoMath, some ⟨10, 0, 0, 0⟩, some ⟨5, 0, 0, 0⟩,
        false, some 1, some 1, .fin 0, 1, true⟩
      = ⟨⟨.fin 7⟩, .raised,
          emit true (.relVelocity
            (longComponent demoMath 5 0 1 - longComponent demoMath 10 0 1))⟩ :=
  aLongReq_zero_distance_unguarded ⟨.fin 7⟩ demoMath ⟨10, 0, 0, 0⟩ ⟨5, 0, 0, 0⟩
    1 1 true (by decide) (by decide)

/-- Claim C7: when both states resolve and the same-lanelet exception
condition with expected value 0.0 holds, compute short-circuits, skips
the kinematic computation and returns exactly 0.0, which it also
stores. -/
theorem aLongReq_same_lanelet_short_circuit :
    ∀ (s : MeasureState) (m : MathFns) (eSt oSt : VehicleState)
      (eo oo : Option ℚ) (hw : PyVal) (mode : ℕ) (vb : Bool),
      compute s ⟨m, some eSt, some oSt, true, eo, oo, hw, mode, vb⟩
        = ⟨⟨.fin 0⟩, .ret (.fin 0), emit vb (.measureValue (.fin 0))⟩ := by
  intro s m eSt oSt eo oo hw mode vb
  rfl

/-- Claim C8: when the headway measure yields NaN (no common lane), the
NaN propagates through either kinematic model: the call stores and
returns NaN, not 0.0, and nothing is raised. -/
theorem aLongReq_nan_headway_propagates :
    ∀ (s : MeasureState) (m : MathFns) (eSt oSt : VehicleState)
      (eo oo : ℚ) (mode : ℕ) (vb : Bool),
      eo ≠ 0 → oo ≠ 0 →
      (compute s ⟨m, some eSt, some oSt, false, some eo, some oo, .nan, mode, vb⟩).result
        = .ret .nan
      ∧ (compute s ⟨m, some eSt, some oSt, false, some eo, some oo, .nan, mode, vb⟩).state.value
        = .nan := by
  intro s m eSt oSt eo oo mode vb heo hoo
  by_cases hm : mode = 1 <;>
    simp [compute, orientationTruthy, heo, hoo, hm, aReqMode1, aReqPiecewise,
      pyDiv, pyMul, pySub, pyMin, pyLt, finish, postProcess, pyGt, int_round]

/-- Witness for claim C8: NaN headway at a concrete call, the nonzero
orientation hypotheses discharged at 1. -/
theorem aLongReq_nan_headway_propagates_witness :
    (compute ⟨.fin 2⟩ ⟨demoMath, some ⟨10, 0, 0, 0⟩, some ⟨5, 0, 0, 0⟩,
        false, some 1, some 1, .nan, 1, false⟩).result = .ret .nan
    ∧ (compute ⟨.fin 2⟩ ⟨demoMath, some ⟨10, 0, 0, 0⟩, some ⟨5, 0, 0, 0⟩,
        false, some 1, some 1, .nan, 1, false⟩).state.value = .nan :=
  aLongReq_nan_headway_propagates ⟨.fin 2⟩ demoMath ⟨10, 0, 0, 0⟩ ⟨5, 0, 0, 0⟩
    1 1 1 false (by decide) (by decide)

/-- Shape of every compute call: either the exception escapes and the
stored value is untouched, or the validation fails and NaN is returned
with the stored value untouched, or the returned value is exactly the
value stored by this call. -/
theorem compute_shape (s : MeasureState) (i : ComputeInput) :
    ((compute s i).state = s ∧ (compute s i).result = .raised)
    ∨ ((compute s i).state = s ∧ (compute s i).result = .ret .nan
        ∧ (i.ego_state.isNone || i.other_state.isNone) = true)
    ∨ (∃ v, (compute s i).state = ⟨v⟩ ∧ (compute s i).result = .ret v) := by
  simp only [compute]
  split
  · next h => exact Or.inr (Or.inl ⟨rfl, rfl, h⟩)
  · split
    · exact Or.inr (Or.inr ⟨.fin 0, rfl, rfl⟩)
    · split
      · exact Or.inr (Or.inr ⟨postProcess (.fin 0), rfl, rfl⟩)
      · split
        · split
          · exact Or.inl ⟨rfl, rfl⟩
          · exact Or.inr (Or.inr ⟨postProcess _, rfl, rfl⟩)
        · split
          · exact Or.inl ⟨rfl, rfl⟩
          · exact Or.inr (Or.inr ⟨postProcess _, rfl, rfl⟩)

/-- Claim C9 counterexample: a call that returns NaN because the ego
state is unresolvable does not write the value field, so a stale value
from an earlier call (-5 here) remains stored while the call returns
NaN. -/
theorem aLongReq_stale_value_cex :
    compute ⟨.fin (-5)⟩ ⟨demoMath, none, some ⟨5, 0, 0, 0⟩,
        false, some 1, some 1, .fin 20, 1, false⟩
      = ⟨⟨.fin (-5)⟩, .ret .nan, []⟩
    ∧ PyVal.fin (-5) ≠ PyVal.nan :=
  ⟨rfl, fun h => PyVal.noConfusion h⟩

/-- Claim C9 amended: a call that passes state validation and returns a
value stores exactly that value (one write, no stale value), but a call
with a missing actor state returns NaN while leaving the stored value
unchanged, so such a call does not write the value field at all. -/
theorem aLongReq_value_write_discipline :
    (∀ (s : MeasureState) (i : ComputeInput),
      (i.ego_state.isNone || i.other_state.isNone) = true →
      (compute s i).state = s ∧ (compute s i).result = .ret .nan)
    ∧ (∀ (s : MeasureState) (i : ComputeInput) (v : PyVal),
      (i.ego_state.isNone || i.other_state.isNone) = false →
      (compute s i).result = .ret v →
      (compute s i).state.value = v) := by
  constructor
  · intro s i h
    constructor <;> simp [compute, h]
  · intro s i v hval hres
    rcases compute_shape s i with ⟨_, hr⟩ | ⟨_, hr, hvr⟩ | ⟨v0, hst, hr⟩
    · rw [hr] at hres
      exact absurd hres (by simp)
    · rw [hval] at hvr
      cases hvr
    · rw [hr] at hres
      rw [hst]
      injection hres

/-- Witness for claim C9 amended: both conjuncts at concrete calls, the
missing-state premise and the validated premise discharged there. -/
theorem aLongReq_value_write_discipline_witness :
    ((compute ⟨.fin 4⟩ ⟨demoMath, none, none, false, none, none, .nan, 1, false⟩).state
        = ⟨.fin 4⟩
      ∧ (compute ⟨.fin 4⟩ ⟨demoMath, none, none, false, none, none, .nan, 1, false⟩).result
        = .ret .nan)
    ∧ (compute ⟨.fin 4⟩ ⟨demoMath, some ⟨10, 0, 0, 0⟩, some ⟨5, 0, 0, 0⟩,
        true, none, none, .nan, 1, false⟩).state.value = .fin 0 :=
  ⟨aLongReq_value_write_discipline.1 ⟨.fin 4⟩ _ rfl,
   aLongReq_value_write_discipline.2 ⟨.fin 4⟩ _ (.fin 0) rfl rfl⟩

/-- Result of a compute call as a function of the declared inputs alone:
the mirror of compute that drops the stored state and the printed log. -/
def computeResult (i : ComputeInput) : ComputeResult :=
  if i.ego_state.isNone || i.other_state.isNone then
    .ret .nan
  else if i.except_same_lanelet then
    .ret (.fin 0)
  else if !orientationTruthy i.ego_orientation
       || !orientationTruthy i.other_orientation then
    .ret (postProcess (.fin 0))
  else
    let egoSt := i.ego_state.getD ⟨0, 0, 0, 0⟩
    let otherSt := i.other_state.getD ⟨0, 0, 0, 0⟩
    let egoOri := i.ego_orientation.getD 0
    let otherOri := i.other_orientation.getD 0
    let aObj := longComponent i.math otherSt.acceleration otherSt.acceleration_y otherOri
    let xRel := i.headway
    let vEgoLong := longComponent i.math egoSt.velocity egoSt.velocity_y egoOri
    let vOtherLong := longComponent i.math otherSt.velocity otherSt.velocity_y otherOri
    if i.acceleration_mode = 1 then
      match aReqMode1 vEgoLong vOtherLong aObj xRel with
      | none => .raised
      | some a => .ret (postProcess a)
    else
      match aReqPiecewise vEgoLong vOtherLong aObj xRel with
      | none => .raised
      | some a => .ret (postProcess a)

/-- The outcome of a call depends only on the declared inputs, not on
the previously stored value. -/
theorem compute_result_eq (s : MeasureState) (i : ComputeInput) :
    (compute s i).result = computeResult i := by
  simp only [compute, computeResult]
  split
  · rfl
  · split
    · rfl
    · split
      · rfl
      · split
        · split <;> rfl
        · split <;> rfl

/-- The outcome of a call does not depend on the verbose flag. -/
theorem computeResult_verbose (i : ComputeInput) (b : Bool) :
    computeResult (setVerbose i b) = computeResult i := rfl

/-- Claim C10: compute is deterministic in its declared inputs and its
returned outcome is independent of the stored value left by earlier
calls and of the verbose logging flag: any two calls on inputs that
agree on everything but verbose produce the same outcome. -/
theorem aLongReq_deterministic_verbose_independent :
    ∀ (s1 s2 : MeasureState) (i : ComputeInput) (b : Bool),
      (compute s1 i).result = (compute s2 (setVerbose i b)).result := by
  intro s1 s2 i b
  rw [compute_result_eq, compute_result_eq, computeResult_verbose]

/-- Witness for claim C7: the short-circuit at a concrete call. -/
theorem aLongReq_same_lanelet_short_circuit_witness :
    compute ⟨.fin 9⟩ ⟨demoMath, some ⟨10, 0, 0, 0⟩, some ⟨5, 0, 0, 0⟩,
        true, some 1, some 1, .fin 20, 1, true⟩
      = ⟨⟨.fin 0⟩, .ret (.fin 0), emit true (.measureValue (.fin 0))⟩ :=
  aLongReq_same_lanelet_short_circuit ⟨.fin 9⟩ demoMath ⟨10, 0, 0, 0⟩ ⟨5, 0, 0, 0⟩
    (some 1) (some 1) (.fin 20) 1 true

/-- Witness for claim C10: two calls on the same declared inputs, from
different stored values and opposite verbose flags, agree. -/
theorem aLongReq_deterministic_verbose_independent_witness :
    (compute ⟨.nan⟩ ⟨demoMath, some ⟨10, 0, 0, 0⟩, some ⟨5, 0, 0, 0⟩,
        false, some 1, some 1, .fin 20, 1, false⟩).result
      = (compute ⟨.fin 1⟩ (setVerbose ⟨demoMath, some ⟨10, 0, 0, 0⟩, some ⟨5, 0, 0, 0⟩,
        false, some 1, some 1, .fin 20, 1, false⟩ true)).result :=
  aLongReq_deterministic_verbose_independent ⟨.nan⟩ ⟨.fin 1⟩
    ⟨demoMath, some ⟨10, 0, 0, 0⟩, some ⟨5, 0, 0, 0⟩,
        false, some 1, some 1, .fin 20, 1, false⟩ true
